import Mathlib

/-!
Verification of the mosaical lending-platform core (interest accrual, yield
distribution, risk classification, liquidation, loan lifecycle) against its
natural-language specification.

Modelling conventions, shared by all definitions below:

* `decimal.Decimal` values (all Django `DecimalField`s) and Python `float`
  values are idealised as exact rationals `ℚ`.  Rounding of `Decimal`
  arithmetic to 28 significant digits is not modelled; no claim below depends
  on it.
* Python's numeric tower is modelled by `PyNum`: a rational value tagged with
  its runtime kind (`int`, `float`, `Decimal`).  CPython raises `TypeError`
  whenever `Decimal` meets `float` in an arithmetic operation (`+ - * / **`),
  while comparisons between all three kinds are permitted; `PyNum`'s
  operations reproduce exactly that, so the type errors present in the source
  arise from the model instead of being asserted.
* Timestamps are rationals measured in days; `timedelta.days` is the floor of
  the elapsed time, as in CPython.
* Database rows are plain structures; `save()` is modelled by returning the
  updated structure, and the append-only `Transaction` table by a `List Tx`
  carried in the state.  Uncaught Python exceptions are `Except.error`.
* Source field names are kept except `ltv_ratio`/`max_ltv_ratio`, shortened to
  `ltv`/`max_ltv` (the names the source itself uses for the corresponding
  local variables), and the status value `PARTIAL_LIQUIDATED`, rendered
  `partlyLiquidated`.
-/

namespace Mosaical

/-- Python exception classes raised by the modelled code paths. -/
inductive PyErr
  | typeError
  | divisionByZero
  | invalidOperation
  | valueError
deriving DecidableEq, Repr

/-- Runtime kind of a Python number: `int`, `float`, or `decimal.Decimal`. -/
inductive NumKind
  | int
  | float
  | dec
deriving DecidableEq, Repr

/-- A Python number: an exact rational value tagged with its runtime kind. -/
structure PyNum where
  kind : NumKind
  val : ℚ
deriving DecidableEq, Repr

def pyInt (z : ℤ) : PyNum := ⟨.int, (z : ℚ)⟩

def pyFloat (q : ℚ) : PyNum := ⟨.float, q⟩

def pyDec (q : ℚ) : PyNum := ⟨.dec, q⟩

/-- Kind of the result of a binary arithmetic operation: `int` coerces to
either other kind, but `Decimal` and `float` do not mix — CPython raises
`TypeError` (`decimal` does not implement mixed arithmetic with `float`). -/
def NumKind.combine : NumKind → NumKind → Except PyErr NumKind
  | .int, k => .ok k
  | .float, .int => .ok .float
  | .dec, .int => .ok .dec
  | .float, .float => .ok .float
  | .dec, .dec => .ok .dec
  | .float, .dec => .error .typeError
  | .dec, .float => .error .typeError

def PyNum.add (a b : PyNum) : Except PyErr PyNum := do
  let k ← a.kind.combine b.kind
  return ⟨k, a.val + b.val⟩

def PyNum.sub (a b : PyNum) : Except PyErr PyNum := do
  let k ← a.kind.combine b.kind
  return ⟨k, a.val - b.val⟩

def PyNum.mul (a b : PyNum) : Except PyErr PyNum := do
  let k ← a.kind.combine b.kind
  return ⟨k, a.val * b.val⟩

/-- Python true division: `int / int` yields `float`; division by zero raises
(`decimal.DivisionByZero`, or `decimal.InvalidOperation` for `0 / 0`; the
distinction follows the `decimal` module, the claims only use that it raises). -/
def PyNum.div (a b : PyNum) : Except PyErr PyNum := do
  let k ← a.kind.combine b.kind
  if b.val = 0 then
    if a.val = 0 then .error .invalidOperation else .error .divisionByZero
  else
    return ⟨if k = .int then .float else k, a.val / b.val⟩

/-- Python `**`.  The `rpow` parameter supplies the numeric value of general
real exponentiation; it is irrelevant on every reachable path below, because
the only `**` in the source has a `Decimal` base and a `float` exponent and
therefore raises `TypeError` before any value is computed. -/
def PyNum.pow (rpow : ℚ → ℚ → ℚ) (a b : PyNum) : Except PyErr PyNum := do
  let k ← a.kind.combine b.kind
  return ⟨k, rpow a.val b.val⟩

/-- Division of two `Decimal`s (used where the source divides two
`DecimalField` values): raises on a zero divisor, exact otherwise. -/
def decDiv (a b : ℚ) : Except PyErr ℚ :=
  if b = 0 then
    if a = 0 then .error .invalidOperation else .error .divisionByZero
  else .ok (a / b)

/-- The expression `(debt / value) * 100` recurring throughout the source
(views.py:143, utils.py:33, utils.py:108, utils.py:227, utils.py:277,
valuation_oracle.py:81); both operands are `Decimal`. -/
def ltvOf (debt value : ℚ) : Except PyErr ℚ := do
  let f ← decDiv debt value
  return f * 100

/-- `NFTVault.STATUS_CHOICES` (models.py:28-34). -/
inductive NFTStatus
  | deposited
  | collateralized
  | partlyLiquidated
  | liquidated
  | withdrawn
deriving DecidableEq, Repr

/-- `Loan.STATUS_CHOICES` (models.py:54-59). -/
inductive LoanStatus
  | active
  | repaid
  | liquidated
  | defaulted
deriving DecidableEq, Repr

/-- `Transaction.TRANSACTION_TYPES` (models.py:104-117), restricted to the
types the modelled operations write. -/
inductive TxType
  | loanCreate
  | loanRepay
  | yieldReceived
  | partLiquidation
  | fullLiquidation
  | dpoCreated
deriving DecidableEq, Repr

/-- One row of the append-only `Transaction` ledger (models.py:103-125);
only the type and (signed) amount matter to the claims. -/
structure Tx where
  txType : TxType
  amount : ℚ
deriving DecidableEq, Repr

/-- `NFTCollection` (models.py:16-25): the fields the engines read. -/
structure Collection where
  max_ltv : ℚ
  base_yield_rate : ℚ
deriving DecidableEq, Repr

/-- `NFTVault` (models.py:27-51).  `deposit_date` and `last_yield_date` are
timestamps in days. -/
structure NFT where
  estimated_value : ℚ
  utility_score : ℤ
  status : NFTStatus
  ownership_percentage : ℚ
  deposit_date : ℚ
  last_yield_date : Option ℚ
deriving DecidableEq, Repr

/-- `Loan` (models.py:53-79).  `last_interest_update` is a timestamp in days. -/
structure Loan where
  principal_amount : ℚ
  interest_rate : ℚ
  current_debt : ℚ
  ltv : ℚ
  status : LoanStatus
  last_interest_update : ℚ
deriving DecidableEq, Repr

/-- `DPOToken` (models.py:90-101). -/
structure DPOToken where
  ownership_percentage : ℚ
  purchase_price : ℚ
  current_price : ℚ
  is_for_sale : Bool
deriving DecidableEq, Repr

/-- A throwaway interpretation of Python `**` used to instantiate `rpow` in
concrete runs; every reachable `**` in the source raises `TypeError` before
consulting it, so its value is irrelevant. -/
def rpow0 : ℚ → ℚ → ℚ := fun _ _ => 0

/-- Source `InterestCalculator.calculate_compound_interest` (utils.py:11-16).
`principal` and `rate` arrive as `Decimal` loan fields and `time_months` as a
Python `float`, so `(1 + monthly_rate) ** time_months` is `Decimal ** float`
and raises `TypeError`; the translation keeps every intermediate step so that
this arises from `PyNum.pow`, not by assertion. -/
def calculate_compound_interest (rpow : ℚ → ℚ → ℚ) (principal rate time_months : PyNum) :
    Except PyErr PyNum := do
  let rate_decimal ← rate.div (pyInt 100)
  let monthly_rate ← rate_decimal.div (pyInt 12)
  let growth ← (PyNum.add (pyInt 1) monthly_rate)
  let factor ← growth.pow rpow time_months
  let amount ← principal.mul factor
  amount.sub principal

/-- Source `InterestCalculator.update_loan_interest` (utils.py:19-47).
`now` is the current timestamp in days; `time_diff.days` is the floor of the
elapsed time and `30.44` and `0.033` are the source's float literals.  Returns
the accrued interest together with the saved loan and the ledger rows written
(the source logs the interest as a negative `LOAN_REPAY` amount).  The value
read from `loan.nft_collateral.estimated_value` is passed as `nftValue`. -/
def update_loan_interest (rpow : ℚ → ℚ → ℚ) (now : ℚ) (nftValue : ℚ) (loan : Loan) :
    Except PyErr (ℚ × Loan × List Tx) :=
  let days : ℤ := ⌊now - loan.last_interest_update⌋
  let months_passed : ℚ := (days : ℚ) / (3044 / 100 : ℚ)
  if months_passed ≥ 33 / 1000 then do
    let interest ← calculate_compound_interest rpow
      (pyDec loan.current_debt) (pyDec loan.interest_rate) (pyFloat months_passed)
    let newDebt := loan.current_debt + interest.val
    let newLtv ← ltvOf newDebt nftValue
    return (interest.val,
      { loan with current_debt := newDebt, ltv := newLtv, last_interest_update := now },
      [⟨.loanRepay, -interest.val⟩])
  else
    return (0, loan, [])

/-- Sequential batch processing with Python exception semantics.  Each of the
batch loops in the source — `update_all_loans` (utils.py:50-60),
`process_all_yields` (utils.py:204-215), `check_all_liquidations`
(utils.py:304-322) — processes and saves one entity at a time and contains no
`try`/`except`, so the first uncaught exception propagates out of the loop:
entities already processed keep their updates, the failing entity and all
later ones are left untouched.  Returns the final list together with the
escaped exception, if any. -/
def runBatch (step : α → Except PyErr α) : List α → List α × Option PyErr
  | [] => ([], none)
  | x :: xs =>
    match step x with
    | .error e => (x :: xs, some e)
    | .ok x' =>
      let r := runBatch step xs
      (x' :: r.1, r.2)

/-- A loan paired with its collateral's `estimated_value`, the per-entity unit
of `update_all_loans`. -/
structure LoanRow where
  loan : Loan
  nftValue : ℚ
deriving DecidableEq, Repr

/-- One iteration of the `update_all_loans` loop body (utils.py:56-58). -/
def loanStep (rpow : ℚ → ℚ → ℚ) (now : ℚ) (row : LoanRow) : Except PyErr LoanRow := do
  let r ← update_loan_interest rpow now row.nftValue row.loan
  return { row with loan := r.2.1 }

/-- Source `InterestCalculator.update_all_loans` (utils.py:49-60): filters the
`ACTIVE` loans and accrues interest on each in turn, with no per-entity
exception handling. -/
def update_all_loans (rpow : ℚ → ℚ → ℚ) (now : ℚ) (rows : List LoanRow) :
    List LoanRow × Option PyErr :=
  runBatch (loanStep rpow now) (rows.filter fun r => r.loan.status = .active)

/-- Source `YieldCalculator.calculate_nft_yield` (utils.py:65-78).
`base_yield_rate` and `estimated_value` are `Decimal` fields while
`utility_bonus = (utility_score - 50) / 1000` is `int / int`, i.e. a `float`
(this holds even when the numerator is `0`), so the very next line
`monthly_yield_rate = base_rate + utility_bonus` adds a `Decimal` to a `float`
and raises `TypeError` for every input; the remaining lines are translated
anyway so the definition mirrors the whole source body.  The final
`max(daily_yield, Decimal('0'))` returns whichever comparand is larger. -/
def calculate_nft_yield (col : Collection) (nft : NFT) : Except PyErr PyNum := do
  let base_rate ← (pyDec col.base_yield_rate).div (pyInt 100)
  let utility_bonus ← (pyInt (nft.utility_score - 50)).div (pyInt 1000)
  let monthly_yield_rate ← base_rate.add utility_bonus
  let daily_yield_rate ← monthly_yield_rate.div (pyFloat (3044 / 100))
  let vr ← (pyDec nft.estimated_value).mul daily_yield_rate
  let vro ← vr.mul (pyDec nft.ownership_percentage)
  let daily_yield ← vro.div (pyInt 100)
  return if daily_yield.val ≥ 0 then daily_yield else pyDec 0

/-- State touched by `process_nft_yield`: the asset, its collection, the
result of the `Loan.objects.get(nft_collateral=nft, status='ACTIVE')` lookup
(`none` models `Loan.DoesNotExist`), the owner's `UserProfile.vbtc_balance`,
the `YieldRecord` amounts for the asset, and the ledger. -/
structure YieldState where
  col : Collection
  nft : NFT
  activeLoan : Option Loan
  balance : ℚ
  yields : List ℚ
  ledger : List Tx
deriving DecidableEq, Repr

/-- Source `YieldCalculator.process_nft_yield` (utils.py:80-202).  Returns the
total yield distributed together with the updated state.  `days_passed` floors
the elapsed time since `last_yield_date or deposit_date`.  On the
`days_passed ≥ 1` path the first statement evaluated is
`calculate_nft_yield`, which raises `TypeError` (see above), so in the source
that branch never completes; the remainder of the body is translated
faithfully nonetheless, including the routing policy (repay
`min(total_yield, current_debt)` first, finalize the loan when the debt falls
to `≤ 1e-8`, credit any remainder to the owner) and the trailing
`last_yield_date` update. -/
def process_nft_yield (now : ℚ) (s : YieldState) : Except PyErr (ℚ × YieldState) :=
  let last_yield := s.nft.last_yield_date.getD s.nft.deposit_date
  let days_passed : ℤ := ⌊now - last_yield⌋
  if days_passed ≥ 1 then do
    let daily_yield ← calculate_nft_yield s.col s.nft
    let total ← daily_yield.mul (pyInt days_passed)
    let total_yield := total.val
    if total_yield > 0 then do
      let s := { s with yields := s.yields ++ [total_yield] }
      let s' ←
        if s.nft.status = .collateralized then
          match s.activeLoan with
          | some active_loan =>
            if active_loan.current_debt > 0 then do
              let repayment := min total_yield active_loan.current_debt
              let newDebt := active_loan.current_debt - repayment
              let newLtv ← ltvOf newDebt s.nft.estimated_value
              let loan1 := { active_loan with current_debt := newDebt, ltv := newLtv }
              let s := { s with activeLoan := some loan1,
                                ledger := s.ledger ++ [Tx.mk .yieldReceived (repayment)] }
              let s :=
                if loan1.current_debt ≤ (1 / 100000000 : ℚ) then
                  { s with activeLoan :=
                             some { loan1 with status := .repaid, current_debt := 0 },
                           nft := { s.nft with status := .deposited },
                           ledger := s.ledger ++ [Tx.mk .loanRepay (0)] }
                else s
              let remaining_yield := total_yield - repayment
              if remaining_yield > 0 then
                pure { s with balance := s.balance + remaining_yield,
                              ledger := s.ledger ++ [Tx.mk .yieldReceived (remaining_yield)] }
              else
                pure s
            else
              pure { s with balance := s.balance + total_yield,
                            ledger := s.ledger ++ [Tx.mk .yieldReceived (total_yield)] }
          | none =>
            pure { s with balance := s.balance + total_yield,
                          ledger := s.ledger ++ [Tx.mk .yieldReceived (total_yield)] }
        else
          pure { s with balance := s.balance + total_yield,
                        ledger := s.ledger ++ [Tx.mk .yieldReceived (total_yield)] }
      return (total_yield, { s' with nft := { s'.nft with last_yield_date := some now } })
    else
      return (0, s)
  else
    return (0, s)

/-- Source `YieldCalculator.process_all_yields` (utils.py:204-215): every
asset not `WITHDRAWN` or `LIQUIDATED` is processed in turn with no per-entity
exception handling. -/
def process_all_yields (now : ℚ) (assets : List YieldState) :
    List YieldState × Option PyErr :=
  runBatch (fun s => (process_nft_yield now s).map (·.2))
    (assets.filter fun s => s.nft.status ≠ .withdrawn ∧ s.nft.status ≠ .liquidated)

/-- The four risk tiers of `check_liquidation_risk` (utils.py:230-243). -/
inductive RiskLevel
  | safe
  | warning
  | danger
  | liquidation
deriving DecidableEq, Repr

/-- Source `LiquidationEngine.check_liquidation_risk` (utils.py:220-243):
first accrues interest, then classifies by LTV.  `current_ltv` and `max_ltv`
are `Decimal`s while `0.95` and `0.80` are float literals, so the products
`max_ltv * 0.95` and `max_ltv * 0.80` raise `TypeError`; only the
`LIQUIDATION` branch, tested before the first such product, can return.
Returns the tier together with the loan as mutated by the accrual step. -/
def check_liquidation_risk (rpow : ℚ → ℚ → ℚ) (now : ℚ) (col : Collection)
    (nftValue : ℚ) (loan : Loan) : Except PyErr (RiskLevel × Loan × List Tx) := do
  let r ← update_loan_interest rpow now nftValue loan
  let loan := r.2.1
  let current_ltv ← ltvOf loan.current_debt nftValue
  let max_ltv := col.max_ltv
  if current_ltv ≥ max_ltv then
    return (.liquidation, loan, r.2.2)
  else do
    let t95 ← (pyDec max_ltv).mul (pyFloat (95 / 100))
    if current_ltv ≥ t95.val then
      return (.danger, loan, r.2.2)
    else do
      let t80 ← (pyDec max_ltv).mul (pyFloat (80 / 100))
      if current_ltv ≥ t80.val then
        return (.warning, loan, r.2.2)
      else
        return (.safe, loan, r.2.2)

/-- State touched by `liquidate_loan`: the loan, its collateral, the
`DPOToken`s minted against that collateral, and the ledger. -/
structure LiqState where
  loan : Loan
  nft : NFT
  dpos : List DPOToken
  ledger : List Tx
deriving DecidableEq, Repr

/-- Source `LiquidationEngine.liquidate_loan` (utils.py:245-302).  The only
validation is `1 ≤ percentage ≤ 100` (a `ValueError` otherwise); the loan's
status is never checked.  At `percentage = 100` the loan and asset both become
`LIQUIDATED`, the debt is cleared and a `FULL_LIQUIDATION` ledger row is
written; below 100 the debt and the asset's `ownership_percentage` shrink
proportionally, the LTV is recomputed, a `DPOToken` for the liquidated
portion is minted for the borrower (`current_price` takes the model default
`0`, `is_for_sale` the default `False`), and a `PARTIAL_LIQUIDATION` row is
written.  All arithmetic here is `Decimal`/`int`, hence type-clean. -/
def liquidate_loan (s : LiqState) (liquidation_percentage : ℤ) :
    Except PyErr (ℚ × LiqState) :=
  if liquidation_percentage < 1 ∨ liquidation_percentage > 100 then
    .error .valueError
  else
    let liquidation_amount := s.loan.current_debt * liquidation_percentage / 100
    let nft_portion := s.nft.ownership_percentage * liquidation_percentage / 100
    if liquidation_percentage = 100 then
      .ok (liquidation_amount,
        { s with
          loan := { s.loan with status := .liquidated, current_debt := 0 },
          nft := { s.nft with status := .liquidated, ownership_percentage := 0 },
          ledger := s.ledger ++ [Tx.mk .fullLiquidation liquidation_amount] })
    else do
      let newDebt := s.loan.current_debt - liquidation_amount
      let newLtv ← ltvOf newDebt s.nft.estimated_value
      .ok (liquidation_amount,
        { s with
          loan := { s.loan with current_debt := newDebt, ltv := newLtv },
          nft := { s.nft with status := .partlyLiquidated,
                              ownership_percentage :=
                                s.nft.ownership_percentage - nft_portion },
          dpos := s.dpos ++ [DPOToken.mk nft_portion liquidation_amount 0 false],
          ledger := s.ledger ++ [Tx.mk .partLiquidation liquidation_amount] })

/-- One iteration of the `check_all_liquidations` loop body (utils.py:311-320):
classify the loan (accruing interest first) and fully liquidate it when the
tier is `LIQUIDATION`. -/
def sweepStep (rpow : ℚ → ℚ → ℚ) (now : ℚ) (col : Collection) (s : LiqState) :
    Except PyErr LiqState := do
  let r ← check_liquidation_risk rpow now col s.nft.estimated_value s.loan
  let s := { s with loan := r.2.1, ledger := s.ledger ++ r.2.2 }
  match r.1 with
  | .liquidation => do
    let l ← liquidate_loan s 100
    return l.2
  | _ => return s

/-- Source `LiquidationEngine.check_all_liquidations` (utils.py:304-322): the
sweep over all `ACTIVE` loans, with no per-entity exception handling (the
collection is passed alongside since the source reads it through
`loan.nft_collateral.collection`). -/
def check_all_liquidations (rpow : ℚ → ℚ → ℚ) (now : ℚ) (col : Collection)
    (rows : List LiqState) : List LiqState × Option PyErr :=
  runBatch (sweepStep rpow now col) (rows.filter fun s => s.loan.status = .active)

/-- Rejection reasons surfaced as `messages.error` redirects by the loan
views (no state is mutated on any of them); `pyexc` carries a Python
exception caught by the views' generic `except Exception` handler after the
enclosing `transaction.atomic()` rolled back. -/
inductive ViewErr
  | invalidNFT
  | exceedsMax
  | invalidLoan
  | invalidAmount
  | insufficientBalance
  | exceeds100
  | pyexc (e : PyErr)
deriving DecidableEq, Repr

/-- State of one user's borrow interaction: the chosen collateral and its
collection, the user's `vbtc_balance`, and the ledger. -/
structure BorrowState where
  nft : NFT
  col : Collection
  balance : ℚ
  ledger : List Tx
deriving DecidableEq, Repr

/-- Source `create_loan` (views.py:120-176).  The queryset lookup
`NFTVault.objects.get(id=..., owner=request.user, status='DEPOSITED')` is
modelled by requiring `status = DEPOSITED` (the state is the requesting
user's own).  The only amount validation is the upper bound
`loan_amount > max_loan`; the loan is created `ACTIVE` with
`current_debt = principal_amount = loan_amount`, a 5% monthly default rate,
`ltv = loan_amount / estimated_value * 100`, the asset becomes
`COLLATERALIZED` and the balance is credited by `loan_amount`.
`last_interest_update` is `auto_now_add`, i.e. `now`. -/
def create_loan (now : ℚ) (s : BorrowState) (loan_amount : ℚ) :
    Except ViewErr (Loan × BorrowState) :=
  if s.nft.status ≠ .deposited then .error .invalidNFT
  else
    let max_loan := s.nft.estimated_value * s.col.max_ltv / 100
    if loan_amount > max_loan then .error .exceedsMax
    else
      match ltvOf loan_amount s.nft.estimated_value with
      | .error e => .error (.pyexc e)
      | .ok ltv0 =>
        let loan : Loan :=
          { principal_amount := loan_amount
            interest_rate := 5
            current_debt := loan_amount
            ltv := ltv0
            status := .active
            last_interest_update := now }
        .ok (loan,
          { s with nft := { s.nft with status := .collateralized },
                   balance := s.balance + loan_amount,
                   ledger := s.ledger ++ [Tx.mk .loanCreate loan_amount] })

/-- State of one user's repayment interaction: the loan, its collateral, the
user's balance, and the ledger. -/
structure RepayState where
  loan : Loan
  nft : NFT
  balance : ℚ
  ledger : List Tx
deriving DecidableEq, Repr

/-- Source `repay_loan` (views.py:358-415).  The lookup requires an `ACTIVE`
loan of the requesting user; the amount must satisfy
`0 < repay_amount ≤ current_debt` and the balance must cover it.  The balance
is debited and the debt decremented; if the remaining debt is `≤ 1e-8` the
loan is finalized `REPAID` with debt `0` and the collateral released to
`DEPOSITED`.  Note that neither branch recomputes `ltv` (`ltv_ratio` in the
source): a partial repayment leaves it at its pre-repayment value. -/
def repay_loan (s : RepayState) (repay_amount : ℚ) : Except ViewErr RepayState :=
  if s.loan.status ≠ .active then .error .invalidLoan
  else if repay_amount ≤ 0 ∨ repay_amount > s.loan.current_debt then .error .invalidAmount
  else if s.balance < repay_amount then .error .insufficientBalance
  else
    let s := { s with balance := s.balance - repay_amount,
                      loan := { s.loan with
                                current_debt := s.loan.current_debt - repay_amount } }
    let s :=
      if s.loan.current_debt ≤ (1 / 100000000 : ℚ) then
        { s with loan := { s.loan with current_debt := 0, status := .repaid },
                 nft := { s.nft with status := .deposited } }
      else s
    .ok { s with ledger := s.ledger ++ [Tx.mk .loanRepay repay_amount] }

/-- State of one asset's fractional tokens: the origin asset and the
`DPOToken`s whose `original_nft` it is, plus the ledger. -/
structure DpoState where
  nft : NFT
  dpos : List DPOToken
  ledger : List Tx
deriving DecidableEq, Repr

/-- Sum of the `ownership_percentage` of all fractional tokens of an asset,
the quantity `create_dpo` bounds. -/
def dpoSum (dpos : List DPOToken) : ℚ :=
  (dpos.map (·.ownership_percentage)).sum

/-- Source `create_dpo` (views.py:249-288).  The only check is that the sum
of the existing tokens' percentages plus the new one does not exceed 100; the
asset's own retained `ownership_percentage` is neither included in the check
nor reduced by the issuance, and the asset's status is not consulted at all.
The new token is listed for sale at `price`. -/
def create_dpo (s : DpoState) (ownership_percentage price : ℚ) :
    Except ViewErr DpoState :=
  let total_existing := dpoSum s.dpos
  if total_existing + ownership_percentage > 100 then .error .exceeds100
  else
    .ok { s with dpos := s.dpos ++ [DPOToken.mk ownership_percentage price price true],
                 ledger := s.ledger ++ [Tx.mk .dpoCreated 0] }

/-- Source `ValuationOracle.calculate_dynamic_value` (valuation_oracle.py:31-62).
External signals are parameters: `market` is the result of
`get_market_multiplier` (base multiplier plus random volatility, clamped to
`≥ 0.5`) and `ai` the AI price prediction, `none` when `predict_price` raised
and the `except` branch fell back to weights `(0, 1)`.  All arithmetic is
`Decimal` (with `int` operands only), hence type-clean; the result is clamped
to `[0.5, 3.0] × base_value`. -/
def calculate_dynamic_value (market : ℚ) (ai : Option ℚ) (now : ℚ) (nft : NFT) : ℚ :=
  let base_value := nft.estimated_value
  let ai_predicted_value := ai.getD base_value
  let ai_weight : ℚ := if ai.isSome then 6 / 10 else 0
  let traditional_weight : ℚ := if ai.isSome then 4 / 10 else 1
  let utility_multiplier : ℚ := 8 / 10 + (nft.utility_score : ℚ) / 250
  let days_held : ℤ := ⌊now - nft.deposit_date⌋
  let time_multiplier : ℚ := 1 + min ((days_held : ℚ) * (1 / 1000)) (1 / 10)
  let status_multiplier : ℚ := if nft.status = .collateralized then 95 / 100 else 1
  let traditional_value :=
    base_value * market * utility_multiplier * time_multiplier * status_multiplier
  let combined_value := ai_weight * ai_predicted_value + traditional_weight * traditional_value
  max (min combined_value (base_value * 3)) (base_value * (1 / 2))

/-- Recompute `ltv_ratio` of every `ACTIVE` loan against a new collateral
value, as the inner loop of `update_all_valuations` does
(valuation_oracle.py:79-82). -/
def updateLoanLtvs (new_value : ℚ) : List Loan → Except PyErr (List Loan)
  | [] => .ok []
  | l :: ls =>
    if l.status = .active then do
      let ltv ← ltvOf l.current_debt new_value
      let rest ← updateLoanLtvs new_value ls
      return { l with ltv := ltv } :: rest
    else do
      let rest ← updateLoanLtvs new_value ls
      return l :: rest

/-- An asset together with the loans held against it, the per-entity unit of
`update_all_valuations`. -/
structure OracleRow where
  nft : NFT
  loans : List Loan
deriving DecidableEq, Repr

/-- The body of the `update_all_valuations` loop for one asset
(valuation_oracle.py:69-82): compute the dynamic value, and only when the
relative change exceeds 1% store it and recompute every `ACTIVE` loan's
`ltv_ratio` against it.  `abs(new - old) / old` raises when the prior value
is zero. -/
def oracle_update_step (market : ℚ) (ai : Option ℚ) (now : ℚ) (s : OracleRow) :
    Except PyErr OracleRow := do
  let old_value := s.nft.estimated_value
  let new_value := calculate_dynamic_value market ai now s.nft
  let rel ← decDiv |new_value - old_value| old_value
  if rel > 1 / 100 then do
    let loans ← updateLoanLtvs new_value s.loans
    return { nft := { s.nft with estimated_value := new_value }, loans := loans }
  else
    return s



/-! Concrete fixtures used by the claim theorems below.  All follow the
sample scenario of the specification: a collection with `max_ltv_ratio = 70`
and `base_yield_rate = 1`, collateral worth `100`, loans at the 5% default
monthly rate with `last_interest_update = 0`. -/

/-- A collection with `max_ltv_ratio = 70` and `base_yield_rate = 1`. -/
def colA : Collection := ⟨70, 1⟩

/-- A healthy active loan: principal and debt `50` against value `100`. -/
def loanA : Loan := ⟨50, 5, 50, 50, .active, 0⟩

/-- The collateral of `loanA`: value `100`, median utility, fully owned. -/
def nftA : NFT := ⟨100, 50, .collateralized, 100, 0, none⟩

/-- An active loan at LTV exactly `56 = 0.80 × 70` (spec: `WARNING`). -/
def loan56 : Loan := ⟨56, 5, 56, 56, .active, 0⟩

/-- An active loan at LTV exactly `66.5 = 0.95 × 70` (spec: `DANGER`). -/
def loan665 : Loan := ⟨133 / 2, 5, 133 / 2, 133 / 2, .active, 0⟩

/-- An active loan at LTV exactly `70` (spec: `LIQUIDATION`). -/
def loan70 : Loan := ⟨70, 5, 70, 70, .active, 0⟩

/-- An active loan at LTV `80`, above the `70` ceiling. -/
def loan80 : Loan := ⟨80, 5, 80, 80, .active, 0⟩

/-- A loan that has already been fully liquidated: debt cleared, terminal. -/
def loanLiq : Loan := ⟨50, 5, 0, 0, .liquidated, 0⟩

/-- Collateral after full liquidation: `LIQUIDATED`, ownership `0`. -/
def nftLiq : NFT := ⟨100, 50, .liquidated, 0, 0, none⟩

/-- A freshly deposited asset: value `100`, fully owned. -/
def nftFresh : NFT := ⟨100, 50, .deposited, 100, 0, none⟩

/-! Helper lemmas shared by several claims. -/

theorem except_bind_error (e : PyErr) (f : α → Except PyErr β) :
    (Except.error e >>= f : Except PyErr β) = Except.error e := rfl

theorem except_bind_ok (a : α) (f : α → Except PyErr β) :
    (Except.ok a >>= f : Except PyErr β) = f a := rfl

/-- The compound-interest helper raises `TypeError` whenever the principal
and rate are `Decimal` and the elapsed time a `float`, which is how
`update_loan_interest` always calls it: `(1 + monthly_rate) ** time_months`
mixes `Decimal` and `float` (utils.py:15). -/
theorem calculate_compound_interest_raises (rpow : ℚ → ℚ → ℚ) (p r m : ℚ) :
    calculate_compound_interest rpow (pyDec p) (pyDec r) (pyFloat m) = .error .typeError := rfl

/-- The yield formula raises `TypeError` on every input:
`base_rate + utility_bonus` adds a `Decimal` to a `float` (utils.py:72). -/
theorem calculate_nft_yield_raises (col : Collection) (nft : NFT) :
    calculate_nft_yield col nft = .error .typeError := rfl

/-- Interest accrual can only return successfully through its small-window
no-op branch: the accruing branch dies in `calculate_compound_interest`.  So
a successful call leaves the loan exactly as it was and reports zero
interest. -/
theorem update_loan_interest_ok (rpow : ℚ → ℚ → ℚ) (now v : ℚ) (loan : Loan)
    (i : ℚ) (loan' : Loan) (txs : List Tx)
    (h : update_loan_interest rpow now v loan = .ok (i, loan', txs)) :
    loan' = loan ∧ i = 0 ∧ txs = [] := by
  rw [update_loan_interest] at h
  by_cases hg : ((⌊now - loan.last_interest_update⌋ : ℚ) / (3044 / 100) ≥ 33 / 1000)
  · rw [if_pos hg, calculate_compound_interest_raises, except_bind_error] at h
    exact absurd h (by simp)
  · rw [if_neg hg] at h
    injection h with h'
    refine ⟨?_, ?_, ?_⟩ <;> simp_all

/-- Recomputing the LTVs of a loan list against a nonzero collateral value
succeeds and maps each active loan to `debt / value * 100`. -/
theorem updateLoanLtvs_eq_map (b : ℚ) (hb : b ≠ 0) (ls : List Loan) :
    updateLoanLtvs b ls =
      .ok (ls.map fun l =>
        if l.status = .active then { l with ltv := l.current_debt / b * 100 } else l) := by
  induction ls with
  | nil => rfl
  | cons l ls ih =>
    by_cases hl : l.status = .active
    · simp [updateLoanLtvs, hl, ltvOf, decDiv, hb, ih, except_bind_ok, Except.bind]
    · simp [updateLoanLtvs, hl, ih, Except.bind]

/-- Sum of fractional-token percentages after appending one token. -/
theorem dpoSum_append (dpos : List DPOToken) (t : DPOToken) :
    dpoSum (dpos ++ [t]) = dpoSum dpos + t.ownership_percentage := by
  simp [dpoSum]


/-- Value produced by a successful `(debt / value) * 100` computation. -/
theorem ltvOf_ok (a b q : ℚ) (h : ltvOf a b = .ok q) : q = a / b * 100 := by
  rw [ltvOf, decDiv] at h
  by_cases hb : b = 0
  · by_cases ha : a = 0 <;> simp [hb, ha, except_bind_error] at h
  · rw [if_neg hb, except_bind_ok] at h
    injection h with h'
    exact h'.symm

/-- Every active loan in the output of a successful LTV-recomputation pass
carries `debt / value * 100`. -/
theorem updateLoanLtvs_ok (b : ℚ) (ls ls' : List Loan)
    (h : updateLoanLtvs b ls = .ok ls') :
    ∀ l ∈ ls', l.status = .active → l.ltv = l.current_debt / b * 100 := by
  induction ls generalizing ls' with
  | nil =>
    rw [updateLoanLtvs] at h
    injection h with h'
    simp [← h']
  | cons l ls ih =>
    rw [updateLoanLtvs] at h
    by_cases hl : l.status = .active
    · rw [if_pos hl] at h
      rcases hq : ltvOf l.current_debt b with e | q
      · rw [hq, except_bind_error] at h; exact absurd h (by simp)
      · rw [hq, except_bind_ok] at h
        rcases hr : updateLoanLtvs b ls with e | rest
        · rw [hr, except_bind_error] at h; exact absurd h (by simp)
        · rw [hr, except_bind_ok] at h
          injection h with h'
          intro m hm hms
          rcases List.mem_cons.mp (h' ▸ hm) with hhead | htail
          · rw [hhead]
            exact ltvOf_ok l.current_debt b q hq
          · exact ih rest hr m htail hms
    · rw [if_neg hl] at h
      rcases hr : updateLoanLtvs b ls with e | rest
      · rw [hr, except_bind_error] at h; exact absurd h (by simp)
      · rw [hr, except_bind_ok] at h
        injection h with h'
        intro m hm hms
        rcases List.mem_cons.mp (h' ▸ hm) with hhead | htail
        · exact absurd (hhead ▸ hms) hl
        · exact ih rest hr m htail hms

theorem except_pure (a : α) : (pure a : Except PyErr α) = Except.ok a := rfl

/-! Claim C1.  Spec: while a loan is Active, after any core operation
completes, `ltv_ratio = current_debt / collateral.estimated_value × 100`.
This holds for interest accrual, oracle value updates, yield distribution and
liquidation, but manual repayment (views.py:377-393) decrements
`current_debt` without touching `ltv_ratio`, so a partial repayment of an
Active loan leaves the ratio stale. -/

/-- Claim C1, counterexample: repaying 10 of a 50-debt Active loan against
collateral worth 100 succeeds and leaves the loan Active with debt 40, but
`ltv_ratio` still reads 50 instead of `40 / 100 × 100 = 40`: the repayment
view never recomputes it. -/
theorem C1_counterexample :
    repay_loan ⟨loanA, nftA, 10, []⟩ 10 =
      .ok ⟨{ loanA with current_debt := 40 }, nftA, 0, [Tx.mk .loanRepay 10]⟩ ∧
    ({ loanA with current_debt := 40 }).status = .active ∧
    ({ loanA with current_debt := 40 }).ltv ≠
      ({ loanA with current_debt := 40 }).current_debt / nftA.estimated_value * 100 := by
  refine ⟨?_, by norm_num [loanA], by norm_num [loanA, nftA]⟩
  rw [repay_loan]
  norm_num [loanA, nftA]

/-- Claim C1, amended: after interest accrual, an oracle value update, yield
distribution, or liquidation completes successfully, every loan still Active
satisfies `ltv_ratio = current_debt / estimated_value × 100` (assuming it
held beforehand, for the operations whose success path leaves the loan
untouched) — but not after a manual repayment, which `C1_counterexample`
shows leaves the ratio stale. -/
theorem C1_theorem :
    (∀ (rpow : ℚ → ℚ → ℚ) (now v : ℚ) (loan : Loan) (i : ℚ) (loan' : Loan) (txs : List Tx),
      update_loan_interest rpow now v loan = .ok (i, loan', txs) →
      loan.ltv = loan.current_debt / v * 100 →
      loan'.ltv = loan'.current_debt / v * 100) ∧
    (∀ (market : ℚ) (ai : Option ℚ) (now : ℚ) (s s' : OracleRow),
      oracle_update_step market ai now s = .ok s' →
      (∀ l ∈ s.loans, l.status = .active →
        l.ltv = l.current_debt / s.nft.estimated_value * 100) →
      (∀ l ∈ s'.loans, l.status = .active →
        l.ltv = l.current_debt / s'.nft.estimated_value * 100)) ∧
    (∀ (now : ℚ) (s : YieldState) (r : ℚ) (s' : YieldState),
      process_nft_yield now s = .ok (r, s') →
      (∀ l, s.activeLoan = some l → l.status = .active →
        l.ltv = l.current_debt / s.nft.estimated_value * 100) →
      (∀ l, s'.activeLoan = some l → l.status = .active →
        l.ltv = l.current_debt / s'.nft.estimated_value * 100)) ∧
    (∀ (s : LiqState) (pct : ℤ) (amt : ℚ) (s' : LiqState),
      liquidate_loan s pct = .ok (amt, s') →
      s'.loan.status = .active →
      s'.loan.ltv = s'.loan.current_debt / s'.nft.estimated_value * 100) := by
  refine ⟨?_, ?_, ?_, ?_⟩
  · intro rpow now v loan i loan' txs h hinv
    obtain ⟨h1, _, _⟩ := update_loan_interest_ok rpow now v loan i loan' txs h
    rw [h1]; exact hinv
  · intro market ai now s s' h hinv
    rw [oracle_update_step] at h
    rcases hz : decDiv |calculate_dynamic_value market ai now s.nft - s.nft.estimated_value|
        s.nft.estimated_value with e | rel
    · rw [hz, except_bind_error] at h; exact absurd h (by simp)
    · rw [hz, except_bind_ok] at h
      by_cases hrel : rel > 1 / 100
      · rw [if_pos hrel] at h
        rcases hu : updateLoanLtvs (calculate_dynamic_value market ai now s.nft) s.loans
            with e | ls'
        · rw [hu, except_bind_error] at h; exact absurd h (by simp)
        · rw [hu, except_bind_ok, except_pure, Except.ok.injEq] at h
          intro l hl hls
          rw [← h] at hl
          simp only [← h]
          exact updateLoanLtvs_ok _ _ _ hu l hl hls
      · rw [if_neg hrel, except_pure, Except.ok.injEq] at h
        rw [← h]
        exact hinv
  · intro now s r s' h hinv
    rw [process_nft_yield] at h
    by_cases hd : (1 : ℤ) ≤ ⌊now - (s.nft.last_yield_date.getD s.nft.deposit_date)⌋
    · rw [if_pos hd, calculate_nft_yield_raises, except_bind_error] at h
      exact absurd h (by simp)
    · rw [if_neg hd, except_pure, Except.ok.injEq, Prod.mk.injEq] at h
      rw [← h.2]
      exact hinv
  · intro s pct amt s' h hact
    rw [liquidate_loan] at h
    by_cases hb : pct < 1 ∨ pct > 100
    · rw [if_pos hb] at h; exact absurd h (by simp)
    · rw [if_neg hb] at h
      by_cases h100 : pct = 100
      · rw [if_pos h100, Except.ok.injEq, Prod.mk.injEq] at h
        rw [← h.2] at hact
        exact absurd hact (by simp)
      · rw [if_neg h100] at h
        simp only [] at h
        rcases hq : ltvOf (s.loan.current_debt - s.loan.current_debt * (pct : ℚ) / 100)
            s.nft.estimated_value with e | q
        · rw [hq, except_bind_error] at h; exact absurd h (by simp)
        · rw [hq, except_bind_ok, Except.ok.injEq, Prod.mk.injEq] at h
          rw [← h.2]
          simp only []
          exact ltvOf_ok _ _ _ hq

/-- Claim C1, witness: the interest-accrual conjunct applied to the healthy
demo loan over a window too small to accrue. -/
theorem C1_witness :
    loanA.ltv = loanA.current_debt / 100 * 100 :=
  C1_theorem.1 rpow0 0 100 loanA 0 loanA []
    (by rw [update_loan_interest]; norm_num [loanA, except_pure])
    (by norm_num [loanA])

/-! Claim C2.  Spec: `distribute(asset)` computes the pending yield, repays
`min(total_yield, current_debt)`, credits the excess to the owner, and never
drives the debt negative.  In the source none of this can happen: the very
first step of the eligible path, `calculate_nft_yield`, adds the `Decimal`
`base_rate` to the `float` `utility_bonus = (utility_score - 50) / 1000`
(utils.py:68-72), which raises `TypeError` for every asset, so every
distribution attempt with at least one elapsed day dies before any routing. -/

/-- Claim C2: the yield formula raises `TypeError` for every collection and
asset, and consequently a distribution run for a collateralized asset with
three elapsed days and an active 50-debt loan raises instead of distributing. -/
theorem C2_theorem :
    (∀ (col : Collection) (nft : NFT), calculate_nft_yield col nft = .error .typeError) ∧
    process_nft_yield 3 ⟨colA, nftA, some loanA, 0, [], []⟩ = .error .typeError := by
  refine ⟨calculate_nft_yield_raises, ?_⟩
  rw [process_nft_yield]
  norm_num [nftA, calculate_nft_yield_raises, except_bind_error]

/-! Claim C3.  Spec: tiers SAFE/WARNING/DANGER/LIQUIDATION from
`current_ltv` against `max_ltv`, with 56.0 → WARNING, 66.5 → DANGER,
70.0 → LIQUIDATION at `max_ltv = 70`.  In the source only the LIQUIDATION
comparison precedes the `Decimal * float` products `max_ltv * 0.95` and
`max_ltv * 0.80` (utils.py:238-240), so 70.0 classifies LIQUIDATION but 56.0
and 66.5 raise `TypeError` instead of WARNING/DANGER. -/

/-- Claim C3: with `max_ltv = 70` and fresh loans (no accrual window), LTV
56.0 and 66.5 raise `TypeError` where the spec expects WARNING and DANGER,
while LTV 70.0 still returns LIQUIDATION because that comparison happens
before the first mixed-type product. -/
theorem C3_theorem :
    (∀ rpow : ℚ → ℚ → ℚ, check_liquidation_risk rpow 0 colA 100 loan56 = .error .typeError) ∧
    (∀ rpow : ℚ → ℚ → ℚ, check_liquidation_risk rpow 0 colA 100 loan665 = .error .typeError) ∧
    (∀ rpow : ℚ → ℚ → ℚ,
      check_liquidation_risk rpow 0 colA 100 loan70 = .ok (.liquidation, loan70, [])) := by
  refine ⟨?_, ?_, ?_⟩ <;> intro rpow <;>
    rw [check_liquidation_risk, update_loan_interest] <;>
    norm_num [colA, loan56, loan665, loan70, ltvOf, decDiv, PyNum.mul, NumKind.combine,
      pyDec, pyFloat, except_bind_ok, except_bind_error, except_pure]

/-! Claim C4.  Spec: `accrue(loan)` returns zero and mutates nothing when
less than ~1 day (0.033 months) has elapsed, and otherwise increments the
debt by the compound-interest formula.  In the source the no-op side holds
(indeed through 1.9 elapsed days, since `timedelta.days` floors), but the
accruing branch always raises `TypeError` at `Decimal ** float`
(utils.py:15), so interest is never actually added. -/

/-- Claim C4: at 1.9 elapsed days the accrual returns zero and leaves the
loan untouched; at 2 elapsed days — and in general whenever the floored
elapsed-day count crosses the 0.033-month threshold — it raises `TypeError`
instead of incrementing the debt. -/
theorem C4_theorem :
    (∀ rpow : ℚ → ℚ → ℚ, update_loan_interest rpow (19 / 10) 100 loanA = .ok (0, loanA, [])) ∧
    (∀ rpow : ℚ → ℚ → ℚ, update_loan_interest rpow 2 100 loanA = .error .typeError) ∧
    (∀ (rpow : ℚ → ℚ → ℚ) (now v : ℚ) (loan : Loan),
      (33 / 1000 : ℚ) ≤ (⌊now - loan.last_interest_update⌋ : ℚ) / (3044 / 100) →
      update_loan_interest rpow now v loan = .error .typeError) := by
  refine ⟨?_, ?_, ?_⟩
  · intro rpow
    rw [update_loan_interest]
    norm_num [loanA, except_pure]
  · intro rpow
    rw [update_loan_interest]
    norm_num [loanA, calculate_compound_interest_raises, except_bind_error]
  · intro rpow now v loan hg
    rw [update_loan_interest, if_pos hg, calculate_compound_interest_raises, except_bind_error]

/-- Claim C4, witness: the general raising conjunct applied to the LTV-80
demo loan two days after its last update. -/
theorem C4_witness :
    update_loan_interest rpow0 2 200 loan80 = .error .typeError :=
  C4_theorem.2.2 rpow0 2 200 loan80 (by norm_num [loan80])

/-! Claim C5.  Spec: at every fractional-token creation, the sum of the
asset's `FractionalToken` percentages plus the asset's own retained
`ownership_percentage` must not exceed 100, and violating issuances are
rejected.  The voluntary path `create_dpo` (views.py:259-264) only bounds the
sum of the tokens themselves — it neither counts nor reduces the asset's
retained share — so the combined total can reach 150 on a fresh asset.
Partial liquidation, by contrast, carves its minted token out of the
retained share and preserves the combined total. -/

/-- Claim C5, counterexample: a fresh fully-owned asset with no tokens
accepts a 50% DPO issuance, after which the token sum plus the untouched
retained 100% equals 150 > 100. -/
theorem C5_counterexample :
    create_dpo ⟨nftFresh, [], []⟩ 50 10 =
      .ok ⟨nftFresh, [DPOToken.mk 50 10 10 true], [Tx.mk .dpoCreated 0]⟩ ∧
    dpoSum [DPOToken.mk 50 10 10 true] + nftFresh.ownership_percentage = 150 ∧
    (100 : ℚ) < 150 := by
  refine ⟨?_, by norm_num [dpoSum, nftFresh], by norm_num⟩
  rw [create_dpo]
  norm_num [dpoSum]

/-- Claim C5, amended: `create_dpo` bounds only the sum of the fractional
tokens themselves by 100 (rejecting issuances beyond that) and leaves the
asset untouched, so the combined token-plus-retained total is not protected
at voluntary creation; liquidation never increases the combined total. -/
theorem C5_theorem :
    (∀ (s : DpoState) (pct price : ℚ) (s' : DpoState),
      create_dpo s pct price = .ok s' →
      dpoSum s.dpos + pct ≤ 100 ∧ s'.nft = s.nft ∧
        dpoSum s'.dpos = dpoSum s.dpos + pct) ∧
    (∀ (s : DpoState) (pct price : ℚ),
      dpoSum s.dpos + pct > 100 → create_dpo s pct price = .error .exceeds100) ∧
    (∀ (s : LiqState) (pct : ℤ) (amt : ℚ) (s' : LiqState),
      liquidate_loan s pct = .ok (amt, s') →
      0 ≤ s.nft.ownership_percentage →
      dpoSum s'.dpos + s'.nft.ownership_percentage ≤
        dpoSum s.dpos + s.nft.ownership_percentage) := by
  refine ⟨?_, ?_, ?_⟩
  · intro s pct price s' h
    rw [create_dpo] at h
    by_cases hc : dpoSum s.dpos + pct > 100
    · rw [if_pos hc] at h; exact absurd h (by simp)
    · rw [if_neg hc, Except.ok.injEq] at h
      refine ⟨le_of_not_lt hc, ?_, ?_⟩
      · rw [← h]
      · rw [← h]; simp [dpoSum_append]
  · intro s pct price h
    rw [create_dpo, if_pos h]
  · intro s pct amt s' h hown
    rw [liquidate_loan] at h
    by_cases hb : pct < 1 ∨ pct > 100
    · rw [if_pos hb] at h; exact absurd h (by simp)
    · rw [if_neg hb] at h
      by_cases h100 : pct = 100
      · rw [if_pos h100, Except.ok.injEq, Prod.mk.injEq] at h
        rw [← h.2]
        simpa using hown
      · rw [if_neg h100] at h
        simp only [] at h
        rcases hq : ltvOf (s.loan.current_debt - s.loan.current_debt * (pct : ℚ) / 100)
            s.nft.estimated_value with e | q
        · rw [hq, except_bind_error] at h; exact absurd h (by simp)
        · rw [hq, except_bind_ok, Except.ok.injEq, Prod.mk.injEq] at h
          rw [← h.2]
          simp only [dpoSum_append]
          ring_nf
          exact le_refl _

/-- Claim C5, witness: the rejection conjunct applied to an asset whose
tokens already sum to 60%, refusing a further 50%. -/
theorem C5_witness :
    create_dpo ⟨nftFresh, [DPOToken.mk 60 1 1 true], []⟩ 50 5 = .error .exceeds100 :=
  C5_theorem.2.1 ⟨nftFresh, [DPOToken.mk 60 1 1 true], []⟩ 50 5 (by norm_num [dpoSum])

/-! Claim C6.  Spec: liquidating an already-Liquidated loan is rejected with
no state mutated and no new ledger entry.  The source's `liquidate_loan`
(utils.py:245-302) validates only the percentage and never looks at the loan
status: the call proceeds, re-writes the terminal states (debt is already 0,
so the recorded amount is 0) and appends a fresh `FULL_LIQUIDATION` ledger
row.  Only the batch sweeps avoid this by filtering to `ACTIVE` loans. -/

/-- Claim C6, counterexample: fully liquidating an already-Liquidated,
zero-debt loan is not rejected — it returns successfully and appends a new
`FULL_LIQUIDATION` ledger entry of amount 0. -/
theorem C6_counterexample :
    liquidate_loan ⟨loanLiq, nftLiq, [], []⟩ 100 =
      .ok (0, ⟨loanLiq, nftLiq, [], [Tx.mk .fullLiquidation 0]⟩) := by
  rw [liquidate_loan]
  norm_num [loanLiq, nftLiq]

/-- Claim C6, amended: `liquidate_loan` at 100% on a loan whose status is
already Liquidated proceeds unconditionally: it reports the (already cleared)
debt as the liquidation amount, re-writes both terminal states and appends a
new `FULL_LIQUIDATION` ledger row. -/
theorem C6_theorem :
    ∀ s : LiqState, s.loan.status = .liquidated →
      liquidate_loan s 100 =
        .ok (s.loan.current_debt,
          { s with
            loan := { s.loan with status := .liquidated, current_debt := 0 },
            nft := { s.nft with status := .liquidated, ownership_percentage := 0 },
            ledger := s.ledger ++ [Tx.mk .fullLiquidation s.loan.current_debt] }) := by
  intro s hs
  rw [liquidate_loan]
  norm_num

/-- Claim C6, witness: the amended theorem applied to a concrete liquidated
loan still holding a live collateral record. -/
theorem C6_witness :
    liquidate_loan ⟨loanLiq, nftA, [], []⟩ 100 =
      .ok (0, ⟨loanLiq, { nftA with status := .liquidated, ownership_percentage := 0 }, [],
               [Tx.mk .fullLiquidation 0]⟩) := by
  have h := C6_theorem ⟨loanLiq, nftA, [], []⟩ (by norm_num [loanLiq])
  simpa [loanLiq, nftA] using h

/-! Claim C7.  Spec: a failure on one entity must not prevent the remaining
entities of a batch from being processed.  The loops of `update_all_loans`,
`process_all_yields` and `check_all_liquidations` contain no `try`/`except`,
so the first exception propagates and aborts the rest of the batch; only the
`auto_liquidation` management command wraps its (per-loan) liquidation call
in a `try`/`except`. -/

/-- Claim C7, counterexample: a sweep over two active loans — the first at
LTV 56 (whose classification raises `TypeError`), the second at LTV 80
(which, processed alone, is fully liquidated) — aborts on the first loan and
leaves the second untouched and still active. -/
theorem C7_counterexample :
    check_all_liquidations rpow0 0 colA [⟨loan56, nftA, [], []⟩, ⟨loan80, nftA, [], []⟩] =
      ([⟨loan56, nftA, [], []⟩, ⟨loan80, nftA, [], []⟩], some .typeError) ∧
    sweepStep rpow0 0 colA ⟨loan80, nftA, [], []⟩ =
      .ok ⟨{ loan80 with status := .liquidated, current_debt := 0 },
           { nftA with status := .liquidated, ownership_percentage := 0 }, [],
           [Tx.mk .fullLiquidation 80]⟩ := by
  have hA : sweepStep rpow0 0 colA ⟨loan56, nftA, [], []⟩ = .error .typeError := by
    rw [sweepStep, check_liquidation_risk, update_loan_interest]
    norm_num [colA, loan56, nftA, ltvOf, decDiv, PyNum.mul, NumKind.combine,
      pyDec, pyFloat, except_bind_ok, except_bind_error, except_pure]
  have hB : sweepStep rpow0 0 colA ⟨loan80, nftA, [], []⟩ =
      .ok ⟨{ loan80 with status := .liquidated, current_debt := 0 },
           { nftA with status := .liquidated, ownership_percentage := 0 }, [],
           [Tx.mk .fullLiquidation 80]⟩ := by
    rw [sweepStep, check_liquidation_risk, update_loan_interest]
    norm_num [colA, loan80, nftA, ltvOf, decDiv, liquidate_loan,
      except_bind_ok, except_bind_error, except_pure]
  refine ⟨?_, hB⟩
  rw [check_all_liquidations]
  rw [List.filter_cons_of_pos (by simp [loan56]), List.filter_cons_of_pos (by simp [loan80]),
    List.filter_nil]
  simp only [runBatch, hA]

/-- Claim C7, amended: the batch loops stop at the first failing entity — the
exception escapes `runBatch`, the failing entity and all later ones keep
their pre-batch state — as instantiated for `update_all_loans`: an active
loan whose accrual step raises leaves every later row unprocessed. -/
theorem C7_theorem :
    (∀ {α : Type} (step : α → Except PyErr α) (x : α) (xs : List α) (e : PyErr),
      step x = .error e → runBatch step (x :: xs) = (x :: xs, some e)) ∧
    (∀ (rpow : ℚ → ℚ → ℚ) (now : ℚ) (x : LoanRow) (xs : List LoanRow) (e : PyErr),
      x.loan.status = .active → loanStep rpow now x = .error e →
      update_all_loans rpow now (x :: xs) =
        (x :: xs.filter (fun r => r.loan.status = .active), some e)) := by
  constructor
  · intro α step x xs e h
    simp only [runBatch, h]
  · intro rpow now x xs e hx h
    rw [update_all_loans]
    rw [List.filter_cons_of_pos (by simp [hx])]
    simp only [runBatch, h]

/-- Claim C7, witness: the abort law applied to a two-row accrual batch whose
head raises `TypeError` two days after its last update. -/
theorem C7_witness :
    runBatch (loanStep rpow0 2) [⟨loanA, 100⟩, ⟨loan70, 100⟩] =
      ([⟨loanA, 100⟩, ⟨loan70, 100⟩], some .typeError) :=
  C7_theorem.1 (loanStep rpow0 2) ⟨loanA, 100⟩ [⟨loan70, 100⟩] .typeError
    (by rw [loanStep, update_loan_interest]
        norm_num [loanA, calculate_compound_interest_raises, except_bind_error])

/-- The dynamic valuation is clamped to `[0.5, 3.0] ×` the prior recorded
value (valuation_oracle.py:58-62), whatever the market multiplier and AI
prediction contribute. -/
theorem calculate_dynamic_value_bounds (market : ℚ) (ai : Option ℚ) (now : ℚ) (nft : NFT)
    (hv : 0 ≤ nft.estimated_value) :
    nft.estimated_value * (1 / 2) ≤ calculate_dynamic_value market ai now nft ∧
    calculate_dynamic_value market ai now nft ≤ nft.estimated_value * 3 := by
  rw [calculate_dynamic_value]
  constructor
  · exact le_max_right _ _
  · exact max_le (min_le_right _ _) (by linarith)

/-! Claim C8.  Spec: the oracle's computed value always lies within
`[0.5×, 3.0×]` of the asset's prior recorded value; `update_all` applies it
only when the relative change exceeds 1%, recomputing every Active loan's
`ltv_ratio` against it, and leaves everything untouched at a change of at
most 1%.  The per-asset behaviour is exactly this (the prior value must be
positive for the relative-change quotient to be meaningful — at a zero prior
value the source raises on the division). -/

/-- Claim C8: the clamp holds for every market multiplier and AI prediction,
and the per-asset update step applies the new value and recomputes Active
loans' LTVs exactly when the relative change exceeds 1%, doing nothing
otherwise. -/
theorem C8_theorem :
    (∀ (market : ℚ) (ai : Option ℚ) (now : ℚ) (nft : NFT),
      0 ≤ nft.estimated_value →
      nft.estimated_value * (1 / 2) ≤ calculate_dynamic_value market ai now nft ∧
      calculate_dynamic_value market ai now nft ≤ nft.estimated_value * 3) ∧
    (∀ (market : ℚ) (ai : Option ℚ) (now : ℚ) (s s' : OracleRow),
      0 < s.nft.estimated_value →
      oracle_update_step market ai now s = .ok s' →
      ((|calculate_dynamic_value market ai now s.nft - s.nft.estimated_value| /
          s.nft.estimated_value ≤ 1 / 100 → s' = s) ∧
       (|calculate_dynamic_value market ai now s.nft - s.nft.estimated_value| /
          s.nft.estimated_value > 1 / 100 →
        s'.nft.estimated_value = calculate_dynamic_value market ai now s.nft ∧
        s'.loans = s.loans.map (fun l =>
          if l.status = .active then
            { l with ltv := l.current_debt / calculate_dynamic_value market ai now s.nft * 100 }
          else l)))) := by
  refine ⟨fun market ai now nft hv => calculate_dynamic_value_bounds market ai now nft hv, ?_⟩
  intro market ai now s s' hv h
  have hnv : (0 : ℚ) < calculate_dynamic_value market ai now s.nft := by
    have hb := (calculate_dynamic_value_bounds market ai now s.nft (le_of_lt hv)).1
    linarith
  rw [oracle_update_step, decDiv, if_neg (ne_of_gt hv), except_bind_ok] at h
  by_cases hrel : |calculate_dynamic_value market ai now s.nft - s.nft.estimated_value| /
      s.nft.estimated_value > 1 / 100
  · rw [if_pos hrel, updateLoanLtvs_eq_map _ (ne_of_gt hnv), except_bind_ok, except_pure,
      Except.ok.injEq] at h
    refine ⟨fun hle => absurd hrel (not_lt.mpr hle), fun _ => ?_⟩
    rw [← h]
    exact ⟨rfl, rfl⟩
  · rw [if_neg hrel, except_pure, Except.ok.injEq] at h
    exact ⟨fun _ => h.symm, fun hgt => absurd hgt hrel⟩

/-- Claim C8, witness: the clamp conjunct at a fresh 100-value asset with a
unit market multiplier and no AI prediction. -/
theorem C8_witness :
    nftFresh.estimated_value * (1 / 2) ≤ calculate_dynamic_value 1 none 0 nftFresh ∧
    calculate_dynamic_value 1 none 0 nftFresh ≤ nftFresh.estimated_value * 3 :=
  C8_theorem.1 1 none 0 nftFresh (by norm_num [nftFresh])

/-! Claim C9.  Spec round-trip: borrowing `L` with
`0 < L ≤ estimated_value × max_ltv / 100` against a Deposited asset and
repaying `L` in full (no intervening accrual) ends with the loan Repaid at
debt exactly 0 and the asset back to Deposited.  This is exactly what
`create_loan` followed by `repay_loan` does: the repayment leaves debt
`L − L = 0 ≤ 1e-8`, triggering the finalization branch. -/

/-- Claim C9: the borrow/full-repay round-trip restores the asset to
Deposited and finalizes the loan as Repaid with debt exactly 0, for every
valuable collateral, collection ceiling, and amount within the LTV bound
(the borrower's starting balance is nonnegative, so the credited principal
covers the repayment). -/
theorem C9_theorem :
    ∀ (now b L : ℚ) (nft : NFT) (col : Collection),
      nft.status = .deposited → 0 ≤ b → 0 < L →
      L ≤ nft.estimated_value * col.max_ltv / 100 → nft.estimated_value ≠ 0 →
      ∃ (loan : Loan) (s1 : BorrowState) (s2 : RepayState),
        create_loan now ⟨nft, col, b, []⟩ L = .ok (loan, s1) ∧
        repay_loan ⟨loan, s1.nft, s1.balance, s1.ledger⟩ L = .ok s2 ∧
        s2.loan.status = .repaid ∧ s2.loan.current_debt = 0 ∧
        s2.nft.status = .deposited := by
  intro now b L nft col hst hb hL hmax hv
  have hcreate : create_loan now ⟨nft, col, b, []⟩ L =
      .ok (⟨L, 5, L, L / nft.estimated_value * 100, .active, now⟩,
           ⟨{ nft with status := .collateralized }, col, b + L, [Tx.mk .loanCreate L]⟩) := by
    rw [create_loan]
    rw [if_neg (by simp [hst])]
    rw [if_neg (not_lt.mpr hmax)]
    rw [ltvOf, decDiv, if_neg hv, except_bind_ok, except_pure]
    simp
  have hrepay : repay_loan ⟨⟨L, 5, L, L / nft.estimated_value * 100, .active, now⟩,
      { nft with status := .collateralized }, b + L, [Tx.mk .loanCreate L]⟩ L =
      .ok ⟨⟨L, 5, 0, L / nft.estimated_value * 100, .repaid, now⟩,
           { nft with status := .deposited }, b,
           [Tx.mk .loanCreate L, Tx.mk .loanRepay L]⟩ := by
    rw [repay_loan]
    rw [if_neg (by simp)]
    rw [if_neg (by push_neg; exact ⟨hL, le_refl L⟩)]
    rw [if_neg (not_lt.mpr (by linarith))]
    norm_num [sub_self]
  exact ⟨_, _, _, hcreate, hrepay, rfl, rfl, by simp⟩

/-- Claim C9, witness: borrow 50 against the fresh 100-value asset at the
70% ceiling, then repay 50 in full. -/
theorem C9_witness :
    ∃ (loan : Loan) (s1 : BorrowState) (s2 : RepayState),
      create_loan 0 ⟨nftFresh, colA, 0, []⟩ 50 = .ok (loan, s1) ∧
      repay_loan ⟨loan, s1.nft, s1.balance, s1.ledger⟩ 50 = .ok s2 ∧
      s2.loan.status = .repaid ∧ s2.loan.current_debt = 0 ∧
      s2.nft.status = .deposited :=
  C9_theorem 0 0 50 nftFresh colA (by norm_num [nftFresh]) (by norm_num) (by norm_num)
    (by norm_num [nftFresh, colA]) (by norm_num [nftFresh])

/-! Claim C10 (implicit).  `create_loan` (views.py:120-176) checks only the
upper LTV bound on the requested amount: zero and negative requests pass, an
Active loan is created with `principal_amount = current_debt = loan_amount`,
and the balance moves by `loan_amount` — so a negative request debits the
borrower and can push the balance below zero. -/

/-- Claim C10: for every Deposited asset of nonzero value and every amount
under the LTV ceiling — including zero and negative amounts — borrowing
succeeds, creating an Active loan with principal and debt equal to the
request and shifting the balance by exactly the request. -/
theorem C10_theorem :
    ∀ (now : ℚ) (s : BorrowState) (L : ℚ),
      s.nft.status = .deposited → s.nft.estimated_value ≠ 0 →
      L ≤ s.nft.estimated_value * s.col.max_ltv / 100 →
      ∃ (loan : Loan) (s' : BorrowState),
        create_loan now s L = .ok (loan, s') ∧
        loan.status = .active ∧ loan.principal_amount = L ∧ loan.current_debt = L ∧
        s'.balance = s.balance + L ∧ s'.nft.status = .collateralized := by
  intro now s L hst hv hmax
  refine ⟨⟨L, 5, L, L / s.nft.estimated_value * 100, .active, now⟩,
          ⟨{ s.nft with status := .collateralized }, s.col, s.balance + L,
           s.ledger ++ [Tx.mk .loanCreate L]⟩,
          ?_, rfl, rfl, rfl, rfl, by simp⟩
  rw [create_loan]
  rw [if_neg (by simp [hst])]
  rw [if_neg (not_lt.mpr hmax)]
  rw [ltvOf, decDiv, if_neg hv, except_bind_ok, except_pure]

/-- Claim C10, witness: borrowing −5 against the fresh 100-value asset is
accepted (−5 ≤ 70) and drives the borrower's zero balance to −5 < 0. -/
theorem C10_witness :
    (∃ (loan : Loan) (s' : BorrowState),
      create_loan 0 ⟨nftFresh, colA, 0, []⟩ (-5) = .ok (loan, s') ∧
      loan.status = .active ∧ loan.principal_amount = -5 ∧ loan.current_debt = -5 ∧
      s'.balance = 0 + (-5) ∧ s'.nft.status = .collateralized) ∧
    (0 + (-5 : ℚ) < 0) :=
  ⟨C10_theorem 0 ⟨nftFresh, colA, 0, []⟩ (-5) (by norm_num [nftFresh])
    (by norm_num [nftFresh]) (by norm_num [nftFresh, colA]), by norm_num⟩

end Mosaical
